import Mathlib

/-!
Shallow embedding of the deferred-action (daction) module of the crawl
repository, file src/crawl-ref/source/dactions.cc, together with proofs of
the behavioural properties stated in the design specification.

The daction enumeration itself lives in dactions.h, which is not part of
the supplied sources; its layout is fixed by the daction_names table in
dactions.cc (eight counted names, eight reserved zero slots, then the
uncounted names with the TAG_MAJOR_VERSION == 34 placement) together with
the COMPILE_CHECK that the table has exactly NUM_DACTIONS entries, and by
the fact that the switch in _apply_daction has a distinct case label for
NUM_DA_COUNTERS. Daction kinds are embedded as natural numbers so that
the comparisons act < NUM_DA_COUNTERS and the range assertion translate
directly.
-/

namespace Crawl

/-- Attitude of a monster (mon_attitude_type in the source tree). Only the
values used by dactions.cc are distinguished. -/
inductive mon_attitude_type where
  | ATT_HOSTILE
  | ATT_NEUTRAL
  | ATT_STRICT_NEUTRAL
  | ATT_GOOD_NEUTRAL
  | ATT_FRIENDLY
deriving DecidableEq, Repr

export mon_attitude_type (ATT_HOSTILE ATT_NEUTRAL ATT_STRICT_NEUTRAL ATT_GOOD_NEUTRAL ATT_FRIENDLY)

/-- Behaviour of a monster (beh_type in the source tree); only BEH_WANDER is
written by dactions.cc, other behaviours are collapsed into two sample
values. -/
inductive beh_type where
  | BEH_SLEEP
  | BEH_SEEK
  | BEH_WANDER
deriving DecidableEq, Repr

export beh_type (BEH_SLEEP BEH_SEEK BEH_WANDER)

/-- Gods referenced by the predicate evaluator (god_type in the source
tree). -/
inductive god_type where
  | GOD_NO_GOD
  | GOD_ZIN
  | GOD_SHINING_ONE
  | GOD_ELYVILON
  | GOD_BEOGH
  | GOD_TROG
  | GOD_YREDELEMNUL
  | GOD_JIYVA
  | GOD_FEDHAS
  | GOD_OTHER
deriving DecidableEq, Repr

export god_type (GOD_NO_GOD GOD_ZIN GOD_SHINING_ONE GOD_ELYVILON GOD_BEOGH GOD_TROG GOD_YREDELEMNUL GOD_JIYVA GOD_FEDHAS GOD_OTHER)

/-- Monster types referenced by dactions.cc; only MONS_SLAVE is tested for,
everything else is collapsed into MONS_PROGRAM_BUG (the placeholder type of
the source tree). -/
inductive monster_type where
  | MONS_SLAVE
  | MONS_PROGRAM_BUG
deriving DecidableEq, Repr

export monster_type (MONS_SLAVE MONS_PROGRAM_BUG)

/-- Dungeon features referenced by dactions.cc: the Jiyva altar that
DACT_REMOVE_JIYVA_ALTARS removes, the floor it is replaced with, one other
altar type and one non-altar feature as background values. -/
inductive dungeon_feature_type where
  | DNGN_FLOOR
  | DNGN_ROCK_WALL
  | DNGN_ALTAR_ZIN
  | DNGN_ALTAR_JIYVA
deriving DecidableEq, Repr

export dungeon_feature_type (DNGN_FLOOR DNGN_ROCK_WALL DNGN_ALTAR_ZIN DNGN_ALTAR_JIYVA)

/-- Branches referenced by dactions.cc: DACT_TOMB_CTELE tests
player_in_branch(BRANCH_TOMB). -/
inductive branch_type where
  | BRANCH_MAIN_DUNGEON
  | BRANCH_TOMB
deriving DecidableEq, Repr

export branch_type (BRANCH_MAIN_DUNGEON BRANCH_TOMB)

/-- Item classes referenced by dactions.cc (object_class_type): corpses are
tested for by DACT_ROT_CORPSES, everything else is collapsed. -/
inductive object_class_type where
  | OBJ_CORPSES
  | OBJ_POTIONS
deriving DecidableEq, Repr

export object_class_type (OBJ_CORPSES OBJ_POTIONS)

/-- Corpse sub-type CORPSE_BODY, as tested by DACT_ROT_CORPSES. -/
@[simp] abbrev CORPSE_BODY : Nat := 0

/-- Corpse sub-type CORPSE_SKELETON, a sub-type distinct from CORPSE_BODY. -/
@[simp] abbrev CORPSE_SKELETON : Nat := 1

/-- Item record (item_def): the fields dactions.cc reads or writes. -/
structure item_def where
  base_type : object_class_type
  sub_type : Nat
  special : Nat
deriving DecidableEq, Repr

/-- Monster record: the fields of the external monster entity that
dactions.cc reads or writes, with the results of the external black-box
entity queries (holiness, faction membership, spellcasting, and so on)
embedded as boolean fields, and the monster flag bits used by dactions.cc
(MF_BAND_MEMBER, MF_ATT_CHANGE_ATTEMPT, MF_NAME_REPLACE, MF_NAME_DESCRIPTOR,
MF_NAME_NOCORPSE, MF_GOD_GIFT) flattened into booleans. -/
structure Monster where
  alive : Bool
  attitude : mon_attitude_type
  behaviour : beh_type
  god : god_type
  has_ench_charm : Bool
  is_unholy : Bool
  is_evil : Bool
  is_unclean : Bool
  is_chaotic : Bool
  is_actual_spellcaster : Bool
  is_holy : Bool
  god_gift : Bool
  yred_undead_slave : Bool
  fellow_slime : Bool
  is_plant : Bool
  is_slime : Bool
  enslaved_soul : Bool
  mons_type : monster_type
  band_member : Bool
  att_change_attempt : Bool
  name_replace : Bool
  name_descriptor : Bool
  name_nocorpse : Bool
  props_pikel_band : Bool
  mname : String
deriving DecidableEq, Repr

/-- Modelled from the spec: friendliness query of the entity store
(monster friendly(), outside src/) - the entity carries the fully friendly
attitude. -/
def Monster.friendly (m : Monster) : Bool :=
  m.attitude == ATT_FRIENDLY

/-- Modelled from the spec: the non-hostility query of the entity store
(monster wont_attack(), outside src/) - the entity is friendly or
good-neutral or strict-neutral. -/
def Monster.wont_attack (m : Monster) : Bool :=
  m.friendly || m.attitude == ATT_GOOD_NEUTRAL || m.attitude == ATT_STRICT_NEUTRAL

/-- Modelled from the spec: benevolent-deity test (is_good_god, outside
src/): Zin, the Shining One and Elyvilon are the good gods. -/
def is_good_god (g : god_type) : Bool :=
  g == GOD_ZIN || g == GOD_SHINING_ONE || g == GOD_ELYVILON

/-- Modelled from the spec: god-gift membership query (mons_is_god_gift,
outside src/): the entity is flagged as a god gift and follows the given
deity. -/
def mons_is_god_gift (m : Monster) (g : god_type) : Bool :=
  m.god_gift && m.god == g

/-- Number of counted daction kinds (NUM_DA_COUNTERS in the missing
dactions.h). The spec states the counted-kind indices are contiguous from 0
and equal in number to this constant; the daction_names table lists exactly
eight counted kinds, and the distinct case label for NUM_DA_COUNTERS in the
switch of _apply_daction places it strictly between the counted kinds and
DACT_OLD_ENSLAVED_SOULS_POOF = 16. -/
@[simp] abbrev NUM_DA_COUNTERS : Nat := 8

/-- Counted daction kinds, indices 0 to 7 in daction_names order. -/
@[simp] abbrev DACT_ALLY_HOLY : Nat := 0

/-- Counted kind: unholy or evil allies go hostile. -/
@[simp] abbrev DACT_ALLY_UNHOLY_EVIL : Nat := 1

/-- Counted kind: unclean or chaotic allies go hostile. -/
@[simp] abbrev DACT_ALLY_UNCLEAN_CHAOTIC : Nat := 2

/-- Counted kind: spellcaster allies go hostile. -/
@[simp] abbrev DACT_ALLY_SPELLCASTER : Nat := 3

/-- Counted kind: Yredelemnul undead slaves go hostile. -/
@[simp] abbrev DACT_ALLY_YRED_SLAVE : Nat := 4

/-- Counted kind: Beogh orcs and their summons go hostile. -/
@[simp] abbrev DACT_ALLY_BEOGH : Nat := 5

/-- Counted kind: fellow slimes go hostile. -/
@[simp] abbrev DACT_ALLY_SLIME : Nat := 6

/-- Counted kind: plants go hostile (allowing reconversion). -/
@[simp] abbrev DACT_ALLY_PLANT : Nat := 7

/-- Uncounted kinds start at index 16 (eight reserved zero slots sit in the
daction_names table between the counted names and these). -/
@[simp] abbrev DACT_OLD_ENSLAVED_SOULS_POOF : Nat := 16

/-- Uncounted kind: holy beings allow another conversion attempt. -/
@[simp] abbrev DACT_HOLY_NEW_ATTEMPT : Nat := 17

/-- Uncounted kind: holy beings go neutral. -/
@[simp] abbrev DACT_HOLY_PETS_GO_NEUTRAL : Nat := 18

/-- Uncounted kind: gifts of Trog go hostile. -/
@[simp] abbrev DACT_ALLY_TROG : Nat := 19

/-- Uncounted kind: shuffle decks. -/
@[simp] abbrev DACT_SHUFFLE_DECKS : Nat := 20

/-- Uncounted kind: reapply passive mapping. -/
@[simp] abbrev DACT_REAUTOMAP : Nat := 21

/-- Uncounted kind: remove Jiyva altars. -/
@[simp] abbrev DACT_REMOVE_JIYVA_ALTARS : Nat := 22

/-- Uncounted kind: slaves of Pikel go good-neutral. -/
@[simp] abbrev DACT_PIKEL_SLAVES : Nat := 23

/-- Uncounted kind: corpses rot. -/
@[simp] abbrev DACT_ROT_CORPSES : Nat := 24

/-- Uncounted kind: Tomb loses its teleport-control restriction. -/
@[simp] abbrev DACT_TOMB_CTELE : Nat := 25

/-- Uncounted kind (placed last under TAG_MAJOR_VERSION == 34): slimes allow
another conversion attempt. -/
@[simp] abbrev DACT_SLIME_NEW_ATTEMPT : Nat := 26

/-- Total number of daction kinds; the daction_names table has 27 entries
and COMPILE_CHECK pins NUM_DACTIONS to that length. -/
@[simp] abbrev NUM_DACTIONS : Nat := 27

/-- Predicate evaluator _mons_matches_counter of dactions.cc. The argument
is an optional monster mirroring the C++ null-able pointer: a null pointer
or a dead monster never matches, and a kind with no rule in the switch falls
through to false. -/
def _mons_matches_counter : Option Monster → Nat → Bool
  | none, _ => false
  | some m, act =>
    if !m.alive then false
    else if act = DACT_ALLY_HOLY then
      m.wont_attack && is_good_god m.god
    else if act = DACT_ALLY_UNHOLY_EVIL then
      m.wont_attack && (m.is_unholy || m.is_evil)
    else if act = DACT_ALLY_UNCLEAN_CHAOTIC then
      m.wont_attack && (m.is_unclean || m.is_chaotic)
    else if act = DACT_ALLY_SPELLCASTER then
      m.wont_attack && m.is_actual_spellcaster
    else if act = DACT_ALLY_YRED_SLAVE then
      m.yred_undead_slave
    else if act = DACT_ALLY_BEOGH then
      m.wont_attack && mons_is_god_gift m GOD_BEOGH
    else if act = DACT_ALLY_SLIME then
      m.fellow_slime
    else if act = DACT_ALLY_PLANT then
      m.is_plant
    else if act = DACT_ALLY_TROG then
      m.friendly && mons_is_god_gift m GOD_TROG
    else if act = DACT_HOLY_PETS_GO_NEUTRAL then
      m.friendly && !m.has_ench_charm && m.is_holy
        && mons_is_god_gift m GOD_SHINING_ONE
    else if act = DACT_PIKEL_SLAVES then
      m.mons_type == MONS_SLAVE && m.band_member && m.props_pikel_band
        && m.mname != "freed slave"
    else false

/-- Observable calls into the external collaborator services (notification
sink, death service, level-content services), recorded in order as events.
Monster-directed events carry the index of the monster in the level list. -/
inductive GameEvent where
  | behaviourAlert (i : Nat)
  | attChanged (i : Nat)
  | monsterMsg (i : Nat) (msg : String)
  | monsterDieDismissed (i : Nat)
  | shuffleDecks
  | reautomap
  | levelFlagChangeMsg
deriving DecidableEq, Repr

/-- State of the currently materialized level together with the player
position fields that _apply_daction reads: the monster list (env.mons), the
tile grid (grd, flattened to a list of cells), the item array (mitm), the
LFLAG_NO_TELE_CONTROL bit of env.level_flags, the player branch and depth,
and the trace of collaborator events emitted so far. -/
structure LevelState where
  monsters : List Monster
  grd : List dungeon_feature_type
  mitm : List item_def
  lflag_no_tele_control : Bool
  branch : branch_type
  depth : Nat
  events : List GameEvent
deriving DecidableEq, Repr

/-- Modelled from the spec: the area/depth-gated flag clearing collaborator
(unset_level_flags, outside src/): clears the given level restriction flag;
the boolean argument silences the user-facing announcement that is otherwise
made when a set flag is cleared. Specialized to the only flag dactions.cc
passes, LFLAG_NO_TELE_CONTROL. -/
def unset_level_flags_no_tele_control (lvl : LevelState) (silent : Bool) : LevelState :=
  { lvl with
    lflag_no_tele_control := false,
    events := lvl.events ++
      (if lvl.lflag_no_tele_control && !silent then [GameEvent.levelFlagChangeMsg] else []) }

/-- Sequential monster-iterator loop: apply the per-monster step function to
each monster in order (the step receives the monster index), collecting the
updated monsters and the concatenated event trace. -/
def stepMonsters (step : Nat → Monster → Monster × List GameEvent) :
    Nat → List Monster → List Monster × List GameEvent
  | _, [] => ([], [])
  | i, m :: ms =>
    let r := step i m
    let rest := stepMonsters step (i + 1) ms
    (r.1 :: rest.1, r.2 ++ rest.2)

/-- Run a monster-iterator loop against a level, appending the events it
emits. -/
def runMonsterLoop (step : Nat → Monster → Monster × List GameEvent)
    (lvl : LevelState) : LevelState :=
  let r := stepMonsters step 0 lvl.monsters
  { lvl with monsters := r.1, events := lvl.events ++ r.2 }

/-- The set of kinds handled by the shared faction-hostility case of the
switch in _apply_daction: the eight counted kinds and DACT_ALLY_TROG. -/
def isHostilityDaction (act : Nat) : Bool :=
  act == DACT_ALLY_HOLY || act == DACT_ALLY_UNHOLY_EVIL
    || act == DACT_ALLY_UNCLEAN_CHAOTIC || act == DACT_ALLY_SPELLCASTER
    || act == DACT_ALLY_YRED_SLAVE || act == DACT_ALLY_BEOGH
    || act == DACT_ALLY_SLIME || act == DACT_ALLY_PLANT
    || act == DACT_ALLY_TROG

/-- Message emitted (only) by the Trog variant of the hostility case. -/
def turnsAgainstMsg : String := " turns against you!"

/-- Message emitted when an enslaved soul is freed. -/
def isFreedMsg : String := " is freed."

/-- Message emitted by the DACT_HOLY_PETS_GO_NEUTRAL variant. -/
def becomesIndifferentMsg : String := " becomes indifferent."

/-- Per-monster body of the shared faction-hostility case: a matching
monster goes hostile (attitude := ATT_HOSTILE), loses ENCH_CHARM, triggers
behaviour_event(ME_ALERT) and mons_att_changed; the plant and slime variants
additionally clear MF_ATT_CHANGE_ATTEMPT, and the Trog variant additionally
emits the turns-against message. -/
def hostility_step (act : Nat) (i : Nat) (m : Monster) : Monster × List GameEvent :=
  if _mons_matches_counter (some m) act then
    ({ m with
        attitude := ATT_HOSTILE,
        has_ench_charm := false,
        att_change_attempt :=
          if act = DACT_ALLY_PLANT ∨ act = DACT_ALLY_SLIME then false
          else m.att_change_attempt },
     [GameEvent.behaviourAlert i, GameEvent.attChanged i]
       ++ (if act = DACT_ALLY_TROG then [GameEvent.monsterMsg i turnsAgainstMsg] else []))
  else (m, [])

/-- Per-monster body of the DACT_OLD_ENSLAVED_SOULS_POOF case: a monster
recognized as an enslaved soul emits the freed message and is removed via
monster_die(KILL_DISMISSED) (the death/removal collaborator, modelled as
marking the monster not alive and recording the dismissal event). -/
def souls_poof_step (i : Nat) (m : Monster) : Monster × List GameEvent :=
  if m.enslaved_soul then
    ({ m with alive := false },
     [GameEvent.monsterMsg i isFreedMsg, GameEvent.monsterDieDismissed i])
  else (m, [])

/-- Per-monster body of the DACT_HOLY_NEW_ATTEMPT case: clear
MF_ATT_CHANGE_ATTEMPT on every holy monster. -/
def holy_new_attempt_step (_ : Nat) (m : Monster) : Monster × List GameEvent :=
  if m.is_holy then ({ m with att_change_attempt := false }, []) else (m, [])

/-- Per-monster body of the DACT_SLIME_NEW_ATTEMPT case: clear
MF_ATT_CHANGE_ATTEMPT on every slime. -/
def slime_new_attempt_step (_ : Nat) (m : Monster) : Monster × List GameEvent :=
  if m.is_slime then ({ m with att_change_attempt := false }, []) else (m, [])

/-- Per-monster body of the shared neutralization case
(DACT_HOLY_PETS_GO_NEUTRAL and DACT_PIKEL_SLAVES): a matching monster goes
good-neutral and triggers mons_att_changed; the Pikel variant renames the
monster and sets the name flags, the other variant emits the
becomes-indifferent message; both set behaviour := BEH_WANDER. -/
def neutral_step (act : Nat) (i : Nat) (m : Monster) : Monster × List GameEvent :=
  if _mons_matches_counter (some m) act then
    if act = DACT_PIKEL_SLAVES then
      ({ m with
          attitude := ATT_GOOD_NEUTRAL,
          name_replace := true,
          name_descriptor := true,
          name_nocorpse := true,
          mname := "freed slave",
          behaviour := BEH_WANDER },
       [GameEvent.attChanged i])
    else
      ({ m with attitude := ATT_GOOD_NEUTRAL, behaviour := BEH_WANDER },
       [GameEvent.attChanged i, GameEvent.monsterMsg i becomesIndifferentMsg])
  else (m, [])

/-- Corpse rotting performed by DACT_ROT_CORPSES on each item slot: a corpse
body gets special := 1 (thoroughly rotten). -/
def rot_corpse (it : item_def) : item_def :=
  if it.base_type == OBJ_CORPSES && it.sub_type == CORPSE_BODY then
    { it with special := 1 }
  else it

/-- The function _apply_daction of dactions.cc. The ASSERT on the kind range
is embedded as the none result (fatal abort); kind values inside the range
that hit no switch case (the reserved slots 8 to 15, including the explicit
NUM_DA_COUNTERS label) fall through with no effect. -/
def _apply_daction (act : Nat) (lvl : LevelState) : Option LevelState :=
  if act < NUM_DACTIONS then
    some
      (if isHostilityDaction act then runMonsterLoop (hostility_step act) lvl
       else if act = DACT_OLD_ENSLAVED_SOULS_POOF then
         runMonsterLoop souls_poof_step lvl
       else if act = DACT_HOLY_NEW_ATTEMPT then
         runMonsterLoop holy_new_attempt_step lvl
       else if act = DACT_SLIME_NEW_ATTEMPT then
         runMonsterLoop slime_new_attempt_step lvl
       else if act = DACT_HOLY_PETS_GO_NEUTRAL ∨ act = DACT_PIKEL_SLAVES then
         runMonsterLoop (neutral_step act) lvl
       else if act = DACT_SHUFFLE_DECKS then
         { lvl with events := lvl.events ++ [GameEvent.shuffleDecks] }
       else if act = DACT_REAUTOMAP then
         { lvl with events := lvl.events ++ [GameEvent.reautomap] }
       else if act = DACT_REMOVE_JIYVA_ALTARS then
         { lvl with grd :=
             lvl.grd.map (fun f => if f = DNGN_ALTAR_JIYVA then DNGN_FLOOR else f) }
       else if act = DACT_ROT_CORPSES then
         { lvl with mitm := lvl.mitm.map rot_corpse }
       else if act = DACT_TOMB_CTELE then
         (if lvl.branch = BRANCH_TOMB then
            unset_level_flags_no_tele_control lvl (decide (lvl.depth ≠ 3))
          else lvl)
       else lvl)
  else none

/-- Per-level counter block of the travel cache (LevelInfo::da_counters);
the C array has exactly NUM_DA_COUNTERS slots. -/
structure LevelInfo where
  da_counters : List Nat
deriving DecidableEq, Repr

/-- The cross-level counter store owned by the travel cache: one LevelInfo
per tracked level (loaded or not). -/
structure TravelCache where
  levels : List LevelInfo
deriving DecidableEq, Repr

/-- Modelled from the spec: TravelCache::clear_da_counter (travel.cc,
outside src/) zeroes the given counted-kind slot on every level-state the
world currently tracks. -/
def TravelCache.clear_da_counter (tc : TravelCache) (act : Nat) : TravelCache :=
  { levels := tc.levels.map (fun li => { da_counters := li.da_counters.set act 0 }) }

/-- The inner loop of update_da_counters for one monster: walk every index
of the fixed-size counter array (slot k holds kind firstAct + k) and
increment each slot whose kind the monster matches. -/
def inc_da_counters (m : Monster) : Nat → List Nat → List Nat
  | _, [] => []
  | act, n :: rest =>
    (if _mons_matches_counter (some m) act then n + 1 else n)
      :: inc_da_counters m (act + 1) rest

/-- The function update_da_counters of dactions.cc: zero all
NUM_DA_COUNTERS slots, then for every monster and every counted kind
increment the slot when the predicate matches. The monster list is the
currently materialized level (the C++ monster_iterator walks the global
monster array). -/
def update_da_counters (monsters : List Monster) (_ : LevelInfo) : LevelInfo :=
  { da_counters :=
      monsters.foldl (fun c m => inc_da_counters m 0 c)
        (List.replicate NUM_DA_COUNTERS 0) }

/-- Whole-session state: the global action log (you.dactions), the applied
cursor of the materialized level (env.dactions_done), the travel cache, and
the materialized level itself. -/
structure GameState where
  dactions : List Nat
  dactions_done : Nat
  travel_cache : TravelCache
  lvl : LevelState
deriving DecidableEq, Repr

/-- The catch-up loop of catchup_dactions: while the cursor is below the log
length, apply the entry at the cursor and advance the cursor. Log and cursor
are threaded explicitly; none propagates a fatal apply. -/
def catchup_aux (log : List Nat) (done : Nat) (lvl : LevelState) :
    Option (Nat × LevelState) :=
  if h : done < log.length then
    match _apply_daction (log.get ⟨done, h⟩) lvl with
    | some lvl2 => catchup_aux log (done + 1) lvl2
    | none => none
  else some (done, lvl)
termination_by log.length - done

/-- The function catchup_dactions of dactions.cc. -/
def catchup_dactions (s : GameState) : Option GameState :=
  match catchup_aux s.dactions s.dactions_done s.lvl with
  | some r => some { s with dactions_done := r.1, lvl := r.2 }
  | none => none

/-- The function add_daction of dactions.cc: append the kind to the global
log, zero its counter slot on every tracked level when it is a counted kind
(act < NUM_DA_COUNTERS), then immediately catch the active level up. -/
def add_daction (act : Nat) (s : GameState) : Option GameState :=
  catchup_dactions
    { s with
      dactions := s.dactions ++ [act],
      travel_cache :=
        if act < NUM_DA_COUNTERS then s.travel_cache.clear_da_counter act
        else s.travel_cache }

/-- Sequential application of a list of log entries, front to back
(left fold in the option monad): the reference order-of-application
semantics the catch-up loop is proved to implement. -/
def apply_list : List Nat → LevelState → Option LevelState
  | [], lvl => some lvl
  | a :: rest, lvl =>
    match _apply_daction a lvl with
    | some lvl2 => apply_list rest lvl2
    | none => none

/-! Concrete states used to exercise the theorems on explicit inputs. -/

/-- Baseline monster for concrete scenarios: a living, plain-neutral,
godless monster with every query flag unset. -/
def baseMonster : Monster where
  alive := true
  attitude := ATT_NEUTRAL
  behaviour := BEH_SEEK
  god := GOD_NO_GOD
  has_ench_charm := false
  is_unholy := false
  is_evil := false
  is_unclean := false
  is_chaotic := false
  is_actual_spellcaster := false
  is_holy := false
  god_gift := false
  yred_undead_slave := false
  fellow_slime := false
  is_plant := false
  is_slime := false
  enslaved_soul := false
  mons_type := MONS_PROGRAM_BUG
  band_member := false
  att_change_attempt := false
  name_replace := false
  name_descriptor := false
  name_nocorpse := false
  props_pikel_band := false
  mname := ""

/-- An empty level outside the Tomb with nothing on it. -/
def emptyLevelState : LevelState where
  monsters := []
  grd := []
  mitm := []
  lflag_no_tele_control := false
  branch := BRANCH_MAIN_DUNGEON
  depth := 1
  events := []

/-- Scenario level for the holy-hostility cascade: one friendly holy-aligned
monster, one already-hostile holy-aligned monster, and one friendly monster
with no god. -/
def holyScenarioLvl : LevelState :=
  { emptyLevelState with
    monsters :=
      [ { baseMonster with attitude := ATT_FRIENDLY, god := GOD_SHINING_ONE },
        { baseMonster with attitude := ATT_HOSTILE, god := GOD_SHINING_ONE },
        { baseMonster with attitude := ATT_FRIENDLY } ] }

/-- Scenario level holding one friendly gift of Trog. -/
def trogScenarioLvl : LevelState :=
  { emptyLevelState with
    monsters :=
      [ { baseMonster with attitude := ATT_FRIENDLY, god := GOD_TROG, god_gift := true } ] }

/-- Session state with an empty log and one tracked level with some
counters set. -/
def counterSessionState : GameState where
  dactions := []
  dactions_done := 0
  travel_cache := { levels := [{ da_counters := [5, 0, 0, 1, 0, 0, 0, 2] }] }
  lvl := emptyLevelState

/-- The session state after scheduling DACT_ALLY_HOLY on
counterSessionState: the kind is appended and applied (a no-op on the empty
level), and the holy counter slot of the tracked level is zeroed. -/
def counterSessionAfter : GameState where
  dactions := [DACT_ALLY_HOLY]
  dactions_done := 1
  travel_cache := { levels := [{ da_counters := [0, 0, 0, 1, 0, 0, 0, 2] }] }
  lvl := emptyLevelState

/-- A charm-enchanted friendly holy gift of the Shining One: friendly and a
god gift, yet excluded from pet neutralization by the charm enchantment. -/
def charmedPetMonster : Monster :=
  { baseMonster with
    attitude := ATT_FRIENDLY,
    has_ench_charm := true,
    is_holy := true,
    god_gift := true,
    god := GOD_SHINING_ONE }

/-- Level holding only the charmed pet. -/
def charmedPetLvl : LevelState :=
  { emptyLevelState with monsters := [charmedPetMonster] }

/-- Level whose grid holds two Jiyva altars and one Zin altar. -/
def altarScenarioLvl : LevelState :=
  { emptyLevelState with grd := [DNGN_ALTAR_JIYVA, DNGN_ALTAR_ZIN, DNGN_ALTAR_JIYVA] }

/-- A level in the Tomb, at depth 3, with the no-teleport-control
restriction set. -/
def tombScenarioLvl : LevelState :=
  { emptyLevelState with
    branch := BRANCH_TOMB,
    depth := 3,
    lflag_no_tele_control := true }

/-- Session state with one scheduled shuffle-decks entry not yet applied. -/
def shuffleSessionState : GameState where
  dactions := [DACT_SHUFFLE_DECKS]
  dactions_done := 0
  travel_cache := { levels := [{ da_counters := [5, 0, 0, 1, 0, 0, 0, 2] }] }
  lvl := emptyLevelState

/-- The session state after catching shuffleSessionState up. -/
def shuffleSessionAfter : GameState :=
  { shuffleSessionState with
    dactions_done := 1,
    lvl := { emptyLevelState with events := [GameEvent.shuffleDecks] } }

/-! Helper lemmas about the monster-iterator loop. -/

theorem stepMonsters_fst_length (step : Nat → Monster → Monster × List GameEvent)
    (i : Nat) (ms : List Monster) :
    (stepMonsters step i ms).1.length = ms.length := by
  induction ms generalizing i with
  | nil => simp [stepMonsters]
  | cons m ms ih => simp [stepMonsters, ih]

theorem stepMonsters_fst_get? (step : Nat → Monster → Monster × List GameEvent)
    (i k : Nat) (ms : List Monster) :
    (stepMonsters step i ms).1.get? k = (ms.get? k).map (fun m => (step (i + k) m).1) := by
  induction ms generalizing i k with
  | nil => simp [stepMonsters]
  | cons m ms ih =>
    cases k with
    | zero => simp [stepMonsters]
    | succ k =>
      simpa [stepMonsters, show i + 1 + k = i + (k + 1) by omega] using ih (i + 1) k

theorem stepMonsters_snd_mem (step : Nat → Monster → Monster × List GameEvent)
    (i : Nat) (ms : List Monster) (e : GameEvent) :
    e ∈ (stepMonsters step i ms).2
      ↔ ∃ k m, ms.get? k = some m ∧ e ∈ (step (i + k) m).2 := by
  induction ms generalizing i with
  | nil => simp [stepMonsters]
  | cons m ms ih =>
    simp only [stepMonsters, List.mem_append, ih (i + 1)]
    constructor
    · rintro (he | ⟨k, mm, hk, he⟩)
      · exact ⟨0, m, by simp, by simpa using he⟩
      · exact ⟨k + 1, mm, by simpa using hk,
          by simpa [show i + 1 + k = i + (k + 1) by omega] using he⟩
    · rintro ⟨k, mm, hk, he⟩
      cases k with
      | zero =>
        left
        simp only [List.get?_cons_zero, Option.some.injEq] at hk
        subst hk
        simpa using he
      | succ k =>
        right
        exact ⟨k, mm, by simpa using hk,
          by simpa [show i + 1 + k = i + (k + 1) by omega] using he⟩

theorem runMonsterLoop_monsters_get?
    (step : Nat → Monster → Monster × List GameEvent) (lvl : LevelState) (k : Nat) :
    (runMonsterLoop step lvl).monsters.get? k
      = (lvl.monsters.get? k).map (fun m => (step k m).1) := by
  simpa using stepMonsters_fst_get? step 0 k lvl.monsters

theorem runMonsterLoop_monsters_length
    (step : Nat → Monster → Monster × List GameEvent) (lvl : LevelState) :
    (runMonsterLoop step lvl).monsters.length = lvl.monsters.length :=
  stepMonsters_fst_length step 0 lvl.monsters

theorem runMonsterLoop_events
    (step : Nat → Monster → Monster × List GameEvent) (lvl : LevelState) :
    (runMonsterLoop step lvl).events
      = lvl.events ++ (stepMonsters step 0 lvl.monsters).2 := rfl

theorem runMonsterLoop_events_mem
    (step : Nat → Monster → Monster × List GameEvent) (lvl : LevelState) (e : GameEvent) :
    e ∈ (stepMonsters step 0 lvl.monsters).2
      ↔ ∃ k m, lvl.monsters.get? k = some m ∧ e ∈ (step k m).2 := by
  simpa using stepMonsters_snd_mem step 0 lvl.monsters e

/-! Helper lemmas about the predicate evaluator. -/

theorem mons_matches_counter_alive (m : Monster) (act : Nat)
    (h : _mons_matches_counter (some m) act = true) : m.alive = true := by
  cases ha : m.alive
  · simp [_mons_matches_counter, ha] at h
  · rfl

/-! Helper lemmas about the catch-up loop. -/

theorem catchup_aux_stop (log : List Nat) (done : Nat) (lvl : LevelState)
    (h : ¬ done < log.length) :
    catchup_aux log done lvl = some (done, lvl) := by
  unfold catchup_aux
  rw [dif_neg h]

theorem catchup_aux_eq_apply_list (log : List Nat) (done : Nat) (lvl : LevelState)
    (h : done ≤ log.length) :
    catchup_aux log done lvl
      = Option.map (fun l => (log.length, l)) (apply_list (log.drop done) lvl) := by
  by_cases hlt : done < log.length
  · have hdrop : log.drop done = log.get ⟨done, hlt⟩ :: log.drop (done + 1) :=
      List.drop_eq_getElem_cons hlt
    unfold catchup_aux
    rw [dif_pos hlt, hdrop]
    cases happ : _apply_daction (log.get ⟨done, hlt⟩) lvl with
    | none => simp only [happ, apply_list]; rfl
    | some lvl2 =>
      simp only [happ, apply_list]
      exact catchup_aux_eq_apply_list log (done + 1) lvl2 hlt
  · have hdone : done = log.length := by omega
    subst hdone
    rw [catchup_aux_stop log log.length lvl hlt]
    simp [apply_list]
termination_by log.length - done

theorem catchup_aux_some_ge (log : List Nat) (done : Nat) (lvl : LevelState)
    (d2 : Nat) (l2 : LevelState) (h : catchup_aux log done lvl = some (d2, l2)) :
    log.length ≤ d2 := by
  by_cases hlt : done < log.length
  · rw [catchup_aux] at h
    rw [dif_pos hlt] at h
    cases happ : _apply_daction (log.get ⟨done, hlt⟩) lvl with
    | none => rw [happ] at h; exact absurd h (by simp)
    | some lvl2 =>
      rw [happ] at h
      exact catchup_aux_some_ge log (done + 1) lvl2 d2 l2 h
  · rw [catchup_aux_stop log done lvl hlt] at h
    cases h
    omega
termination_by log.length - done

theorem catchup_aux_idem (log : List Nat) (done : Nat) (lvl : LevelState)
    (d2 : Nat) (l2 : LevelState) (h : catchup_aux log done lvl = some (d2, l2)) :
    catchup_aux log d2 l2 = some (d2, l2) := by
  have hge := catchup_aux_some_ge log done lvl d2 l2 h
  exact catchup_aux_stop log d2 l2 (by omega)

/-! Helper lemmas about the counter table. -/

theorem inc_da_counters_get? (m : Monster) (act k : Nat) (c : List Nat) :
    (inc_da_counters m act c).get? k
      = (c.get? k).map
          (fun n => if _mons_matches_counter (some m) (act + k) then n + 1 else n) := by
  induction c generalizing act k with
  | nil => simp [inc_da_counters]
  | cons n rest ih =>
    cases k with
    | zero => simp [inc_da_counters]
    | succ k =>
      simpa [inc_da_counters, show act + 1 + k = act + (k + 1) by omega] using
        ih (act + 1) k

theorem foldl_inc_da_counters_get? (ms : List Monster) (c : List Nat) (k : Nat) :
    (ms.foldl (fun c m => inc_da_counters m 0 c) c).get? k
      = (c.get? k).map
          (fun n => n + ms.countP (fun m => _mons_matches_counter (some m) k)) := by
  induction ms generalizing c with
  | nil =>
    simp only [List.foldl_nil, List.countP_nil]
    cases h : c.get? k with
    | none => rfl
    | some n => simp
  | cons m ms ih =>
    rw [List.foldl_cons, ih, inc_da_counters_get?]
    cases h : c.get? k with
    | none => simp [h]
    | some n =>
      simp only [h, Option.map_some, List.countP_cons]
      rw [Nat.zero_add]
      by_cases hm : _mons_matches_counter (some m) k = true
      · simp [hm]; omega
      · simp only [Bool.not_eq_true] at hm
        simp [hm]

theorem inc_da_counters_length (m : Monster) (act : Nat) (c : List Nat) :
    (inc_da_counters m act c).length = c.length := by
  induction c generalizing act with
  | nil => rfl
  | cons n rest ih => simp [inc_da_counters, ih]

theorem foldl_inc_da_counters_length (ms : List Monster) (c : List Nat) :
    (ms.foldl (fun c m => inc_da_counters m 0 c) c).length = c.length := by
  induction ms generalizing c with
  | nil => rfl
  | cons m ms ih => rw [List.foldl_cons, ih, inc_da_counters_length]

/-! Generic list helpers. -/

theorem list_get?_map {α β : Type} (f : α → β) (l : List α) (k : Nat) :
    (l.map f).get? k = (l.get? k).map f := by
  simp [List.get?_eq_getElem?]

theorem list_get?_set_self (l : List Nat) (k : Nat) (v : Nat) (h : k < l.length) :
    (l.set k v).get? k = some v := by
  simp [List.get?_eq_getElem?, h]

/-! One-step unfolding of the catch-up loop. -/

theorem catchup_aux_step (log : List Nat) (done : Nat) (lvl lvl2 : LevelState)
    (h : done < log.length)
    (happ : _apply_daction (log.get ⟨done, h⟩) lvl = some lvl2) :
    catchup_aux log done lvl = catchup_aux log (done + 1) lvl2 := by
  rw [catchup_aux, dif_pos h, happ]

theorem catchup_aux_some_length (log : List Nat) (done : Nat) (lvl : LevelState)
    (d2 : Nat) (l2 : LevelState) (hle : done ≤ log.length)
    (h : catchup_aux log done lvl = some (d2, l2)) : d2 = log.length := by
  have he := catchup_aux_eq_apply_list log done lvl hle
  rw [h] at he
  cases happ : apply_list (log.drop done) lvl with
  | none => rw [happ] at he; cases he
  | some l3 =>
    rw [happ] at he
    simp at he
    exact he.1

/-- A monster message can appear in the event trace of a hostility step only
for the Trog variant: every other faction-hostility kind emits no
per-monster message. -/
theorem hostility_step_msg_trog (act k i : Nat) (m : Monster) (msg : String)
    (h : GameEvent.monsterMsg i msg ∈ (hostility_step act k m).2) :
    act = DACT_ALLY_TROG := by
  unfold hostility_step at h
  by_cases hm : _mons_matches_counter (some m) act = true
  · rw [if_pos hm] at h
    rcases List.mem_append.1 h with h1 | h2
    · rcases List.mem_cons.1 h1 with h3 | h4
      · cases h3
      · rcases List.mem_cons.1 h4 with h5 | h6
        · cases h5
        · exact absurd h6 (List.not_mem_nil _)
    · by_cases ht : act = DACT_ALLY_TROG
      · exact ht
      · rw [if_neg ht] at h2
        exact absurd h2 (List.not_mem_nil _)
  · rw [if_neg hm] at h
    exact absurd h (List.not_mem_nil _)

/-! Claim theorems. -/

/-- C2: after update_da_counters, for every counted kind k the slot holds
exactly the number of living monsters on the level whose predicate matches
kind k; the table is rebuilt from all-zero slots so each matching living
monster contributes exactly one increment. -/
theorem update_da_counters_spec (ms : List Monster) (lev : LevelInfo) (k : Nat)
    (hk : k < NUM_DA_COUNTERS) :
    (update_da_counters ms lev).da_counters.get? k
      = some ((ms.filter
          (fun m => m.alive && _mons_matches_counter (some m) k)).length)
    ∧ (update_da_counters ms lev).da_counters.length = NUM_DA_COUNTERS := by
  constructor
  · unfold update_da_counters
    rw [foldl_inc_da_counters_get?]
    have hrep : (List.replicate NUM_DA_COUNTERS (0 : Nat)).get? k = some 0 := by
      simp only [NUM_DA_COUNTERS] at hk
      interval_cases k <;> rfl
    rw [hrep]
    show some (0 + List.countP (fun m => _mons_matches_counter (some m) k) ms)
        = some ((ms.filter (fun m => m.alive && _mons_matches_counter (some m) k)).length)
    rw [Nat.zero_add, ← List.countP_eq_length_filter]
    congr 1
    apply List.countP_congr
    intro m _
    cases hmm : _mons_matches_counter (some m) k with
    | false => simp [hmm]
    | true => simp [hmm, mons_matches_counter_alive m k hmm]
  · unfold update_da_counters
    rw [foldl_inc_da_counters_length]
    simp

/-- Witness for C2: on the holy-cascade scenario level, slot 0 (holy
allies) counts exactly the single living friendly holy-aligned monster. -/
theorem update_da_counters_spec_witness :
    0 < NUM_DA_COUNTERS
    ∧ (update_da_counters holyScenarioLvl.monsters
        { da_counters := [] }).da_counters.get? 0 = some 1 := by
  constructor
  · decide
  · rw [(update_da_counters_spec holyScenarioLvl.monsters
      { da_counters := [] } 0 (by decide)).1]
    decide

/-- C6: the predicate evaluator is total and pure: it returns false for an
absent (null) or dead entity, and false for every kind with no rule in the
matcher (any kind at or beyond the counted range other than the three
uncounted kinds that do have rules). -/
theorem mons_matches_counter_total (act : Nat) :
    _mons_matches_counter none act = false
    ∧ (∀ m : Monster, m.alive = false → _mons_matches_counter (some m) act = false)
    ∧ (∀ m : Monster, NUM_DA_COUNTERS ≤ act →
        act ≠ DACT_HOLY_PETS_GO_NEUTRAL → act ≠ DACT_ALLY_TROG →
        act ≠ DACT_PIKEL_SLAVES → _mons_matches_counter (some m) act = false) := by
  refine ⟨rfl, ?_, ?_⟩
  · intro m hm
    simp [_mons_matches_counter, hm]
  · intro m h8 h18 h19 h23
    simp only [NUM_DA_COUNTERS] at h8
    simp only [DACT_HOLY_PETS_GO_NEUTRAL] at h18
    simp only [DACT_ALLY_TROG] at h19
    simp only [DACT_PIKEL_SLAVES] at h23
    simp only [_mons_matches_counter]
    cases hm : m.alive with
    | false => simp [hm]
    | true =>
      rw [if_neg (by simp [hm])]
      repeat rw [if_neg (by simp only [DACT_ALLY_HOLY, DACT_ALLY_UNHOLY_EVIL,
        DACT_ALLY_UNCLEAN_CHAOTIC, DACT_ALLY_SPELLCASTER, DACT_ALLY_YRED_SLAVE,
        DACT_ALLY_BEOGH, DACT_ALLY_SLIME, DACT_ALLY_PLANT, DACT_ALLY_TROG,
        DACT_HOLY_PETS_GO_NEUTRAL, DACT_PIKEL_SLAVES]; omega)]

/-- Witness for C6: a dead monster matches nothing, and the reserved kind 9
matches nothing even on a living monster. -/
theorem mons_matches_counter_total_witness :
    baseMonster.alive = true
    ∧ _mons_matches_counter (some { baseMonster with alive := false }) 0 = false
    ∧ _mons_matches_counter (some baseMonster) 9 = false :=
  ⟨rfl,
   (mons_matches_counter_total 0).2.1 { baseMonster with alive := false } rfl,
   (mons_matches_counter_total 9).2.2 baseMonster (by decide) (by decide)
     (by decide) (by decide)⟩

/-- C7: applying a log entry whose kind is outside the declared range
aborts via the ASSERT (modelled as the none result) instead of proceeding,
while sentinel kind values that pass the range check but hit no switch case
(the reserved indices from NUM_DA_COUNTERS up to 15) leave the level
untouched. -/
theorem apply_daction_range_check (act : Nat) (lvl : LevelState) :
    (NUM_DACTIONS ≤ act → _apply_daction act lvl = none)
    ∧ (NUM_DA_COUNTERS ≤ act → act < DACT_OLD_ENSLAVED_SOULS_POOF →
        _apply_daction act lvl = some lvl) := by
  constructor
  · intro h
    simp only [NUM_DACTIONS] at h
    unfold _apply_daction
    rw [if_neg (by simp only [NUM_DACTIONS]; omega)]
  · intro h1 h2
    simp only [NUM_DA_COUNTERS] at h1
    simp only [DACT_OLD_ENSLAVED_SOULS_POOF] at h2
    interval_cases act <;> rfl

/-- Witness for C7: kind 27 is fatal, sentinel kind 8 is a no-op on the
altar scenario level. -/
theorem apply_daction_range_check_witness :
    _apply_daction 27 altarScenarioLvl = none
    ∧ _apply_daction 8 altarScenarioLvl = some altarScenarioLvl :=
  ⟨(apply_daction_range_check 27 altarScenarioLvl).1 (by decide),
   (apply_daction_range_check 8 altarScenarioLvl).2 (by decide) (by decide)⟩

/-- C8: the altar-removal kind rewrites every Jiyva altar tile of the grid
to floor, leaves every other tile unchanged, and touches nothing else on the
level. -/
theorem remove_jiyva_altars_spec (lvl lvl2 : LevelState)
    (h : _apply_daction DACT_REMOVE_JIYVA_ALTARS lvl = some lvl2) :
    lvl2.grd.length = lvl.grd.length
    ∧ (∀ k f, lvl.grd.get? k = some f →
        lvl2.grd.get? k = some (if f = DNGN_ALTAR_JIYVA then DNGN_FLOOR else f))
    ∧ lvl2.monsters = lvl.monsters ∧ lvl2.mitm = lvl.mitm
    ∧ lvl2.events = lvl.events := by
  have hred : _apply_daction DACT_REMOVE_JIYVA_ALTARS lvl
      = some { lvl with grd := lvl.grd.map (fun f => if f = DNGN_ALTAR_JIYVA then DNGN_FLOOR else f) } := rfl
  rw [hred] at h
  cases h
  refine ⟨by simp, ?_, rfl, rfl, rfl⟩
  intro k f hk
  show (lvl.grd.map (fun f => if f = DNGN_ALTAR_JIYVA then DNGN_FLOOR else f)).get? k = _
  rw [list_get?_map, hk]
  rfl

/-- Witness for C8: on the two-Jiyva-one-Zin grid both Jiyva tiles become
floor and the Zin altar survives. -/
theorem remove_jiyva_altars_spec_witness :
    _apply_daction DACT_REMOVE_JIYVA_ALTARS altarScenarioLvl
      = some { altarScenarioLvl with grd := [DNGN_FLOOR, DNGN_ALTAR_ZIN, DNGN_FLOOR] }
    ∧ ({ altarScenarioLvl with
          grd := [DNGN_FLOOR, DNGN_ALTAR_ZIN, DNGN_FLOOR] } : LevelState).grd.length
        = altarScenarioLvl.grd.length :=
  ⟨rfl,
   (remove_jiyva_altars_spec altarScenarioLvl
     { altarScenarioLvl with grd := [DNGN_FLOOR, DNGN_ALTAR_ZIN, DNGN_FLOOR] } rfl).1⟩

/-- C9: the Tomb teleport-control kind fires only in the Tomb branch: there
it performs the teleport-control flag clearing with the depth-derived
silence argument (announced exactly at the bottom depth 3), and elsewhere
the level is untouched. -/
theorem tomb_ctele_spec (lvl : LevelState) :
    (lvl.branch ≠ BRANCH_TOMB → _apply_daction DACT_TOMB_CTELE lvl = some lvl)
    ∧ (lvl.branch = BRANCH_TOMB →
        _apply_daction DACT_TOMB_CTELE lvl
          = some (unset_level_flags_no_tele_control lvl (decide (lvl.depth ≠ 3)))
        ∧ ∀ lvl2, _apply_daction DACT_TOMB_CTELE lvl = some lvl2 →
            lvl2.lflag_no_tele_control = false) := by
  have hred : _apply_daction DACT_TOMB_CTELE lvl
      = some (if lvl.branch = BRANCH_TOMB then
          unset_level_flags_no_tele_control lvl (decide (lvl.depth ≠ 3))
        else lvl) := rfl
  constructor
  · intro hb
    rw [hred, if_neg hb]
  · intro hb
    refine ⟨by rw [hred, if_pos hb], ?_⟩
    intro lvl2 h2
    rw [hred, if_pos hb] at h2
    cases h2
    rfl

/-- Witness for C9: in the Tomb at depth 3 the restriction flag is cleared
and the clearing is announced; outside the Tomb nothing happens. -/
theorem tomb_ctele_spec_witness :
    tombScenarioLvl.branch = BRANCH_TOMB
    ∧ _apply_daction DACT_TOMB_CTELE tombScenarioLvl
        = some (unset_level_flags_no_tele_control tombScenarioLvl
            (decide (tombScenarioLvl.depth ≠ 3)))
    ∧ emptyLevelState.branch ≠ BRANCH_TOMB
    ∧ _apply_daction DACT_TOMB_CTELE emptyLevelState = some emptyLevelState :=
  ⟨rfl,
   ((tomb_ctele_spec tombScenarioLvl).2 rfl).1,
   by decide,
   (tomb_ctele_spec emptyLevelState).1 (by decide)⟩

/-- C10: the pet-neutralization predicate demands friendly AND uncharmed
AND holy AND gift of the Shining One all at once (on a living monster); in
particular a charm-enchanted friendly holy god gift never matches and is
left exactly unchanged when the kind is applied. -/
theorem holy_pets_go_neutral_strict (m : Monster) :
    _mons_matches_counter (some m) DACT_HOLY_PETS_GO_NEUTRAL
      = (m.alive && (m.friendly && !m.has_ench_charm && m.is_holy
          && mons_is_god_gift m GOD_SHINING_ONE))
    ∧ (m.has_ench_charm = true →
        _mons_matches_counter (some m) DACT_HOLY_PETS_GO_NEUTRAL = false)
    ∧ (m.has_ench_charm = true → ∀ lvl lvl2 k,
        _apply_daction DACT_HOLY_PETS_GO_NEUTRAL lvl = some lvl2 →
        lvl.monsters.get? k = some m → lvl2.monsters.get? k = some m) := by
  have hpred : _mons_matches_counter (some m) DACT_HOLY_PETS_GO_NEUTRAL
      = (m.alive && (m.friendly && !m.has_ench_charm && m.is_holy
          && mons_is_god_gift m GOD_SHINING_ONE)) := by
    cases hm : m.alive <;> simp [_mons_matches_counter, hm]
  refine ⟨hpred, ?_, ?_⟩
  · intro hc
    rw [hpred, hc]
    simp
  · intro hc lvl lvl2 k happly hget
    have hred : _apply_daction DACT_HOLY_PETS_GO_NEUTRAL lvl
        = some (runMonsterLoop (neutral_step DACT_HOLY_PETS_GO_NEUTRAL) lvl) := rfl
    rw [hred] at happly
    cases happly
    rw [runMonsterLoop_monsters_get?, hget]
    have hno : _mons_matches_counter (some m) DACT_HOLY_PETS_GO_NEUTRAL = false := by
      rw [hpred, hc]
      simp
    simp [neutral_step, hno]

/-- Witness for C10: the concrete charmed pet does not match the kind and
survives an application of the kind unchanged. -/
theorem holy_pets_go_neutral_strict_witness :
    charmedPetMonster.has_ench_charm = true
    ∧ _mons_matches_counter (some charmedPetMonster) DACT_HOLY_PETS_GO_NEUTRAL
        = false
    ∧ (runMonsterLoop (neutral_step DACT_HOLY_PETS_GO_NEUTRAL)
        charmedPetLvl).monsters.get? 0 = some charmedPetMonster :=
  ⟨rfl,
   (holy_pets_go_neutral_strict charmedPetMonster).2.1 rfl,
   (holy_pets_go_neutral_strict charmedPetMonster).2.2 rfl charmedPetLvl
     (runMonsterLoop (neutral_step DACT_HOLY_PETS_GO_NEUTRAL) charmedPetLvl)
     0 rfl rfl⟩

/-- C1: catch-up is idempotent per level: a successful catch-up leaves the
applied cursor equal to the log length, and a second catch-up with no new
scheduled entries applies no entry and returns the whole state (entities,
cursor, counters, grid, items, events) unchanged. -/
theorem catchup_dactions_idempotent (s t : GameState)
    (hinv : s.dactions_done ≤ s.dactions.length)
    (h : catchup_dactions s = some t) :
    t.dactions_done = t.dactions.length ∧ catchup_dactions t = some t := by
  unfold catchup_dactions at h
  cases haux : catchup_aux s.dactions s.dactions_done s.lvl with
  | none => rw [haux] at h; cases h
  | some r =>
    rw [haux] at h
    cases h
    obtain ⟨d2, l2⟩ := r
    have hlen : d2 = s.dactions.length :=
      catchup_aux_some_length s.dactions s.dactions_done s.lvl d2 l2 hinv haux
    refine ⟨hlen, ?_⟩
    unfold catchup_dactions
    rw [show catchup_aux s.dactions d2 l2 = some (d2, l2) from
      catchup_aux_idem s.dactions s.dactions_done s.lvl d2 l2 haux]

/-- Witness for C1: catching up the one-entry shuffle session drains the
log, and a second catch-up returns the same state. -/
theorem catchup_dactions_idempotent_witness :
    shuffleSessionState.dactions_done ≤ shuffleSessionState.dactions.length
    ∧ shuffleSessionAfter.dactions_done = shuffleSessionAfter.dactions.length
    ∧ catchup_dactions shuffleSessionAfter = some shuffleSessionAfter := by
  have haux : catchup_aux [DACT_SHUFFLE_DECKS] 0 emptyLevelState
      = some (1, { emptyLevelState with events := [GameEvent.shuffleDecks] }) := by
    rw [catchup_aux_step [DACT_SHUFFLE_DECKS] 0 emptyLevelState
      { emptyLevelState with events := [GameEvent.shuffleDecks] } (by decide) rfl]
    exact catchup_aux_stop _ _ _ (by decide)
  have hcat : catchup_dactions shuffleSessionState = some shuffleSessionAfter := by
    unfold catchup_dactions
    rw [show shuffleSessionState.dactions = [DACT_SHUFFLE_DECKS] from rfl,
        show shuffleSessionState.dactions_done = 0 from rfl,
        show shuffleSessionState.lvl = emptyLevelState from rfl, haux]
    rfl
  have hmain := catchup_dactions_idempotent shuffleSessionState shuffleSessionAfter
    (by decide) hcat
  exact ⟨by decide, hmain.1, hmain.2⟩

/-- C4: catch-up replays entries strictly in schedule order: below the log
length the loop applies the entry at the cursor position and then continues
with the cursor advanced by one, and the whole loop equals sequential
front-to-back application of the unapplied log suffix, ending with the
cursor at the log length; the log itself is read-only for the loop, so no
earlier entry is re-read or rewritten. -/
theorem catchup_order_preservation (log : List Nat) (done : Nat) (lvl : LevelState)
    (hle : done ≤ log.length) :
    catchup_aux log done lvl
      = Option.map (fun l => (log.length, l)) (apply_list (log.drop done) lvl)
    ∧ (∀ h : done < log.length,
        catchup_aux log done lvl
          = Option.bind (_apply_daction (log.get ⟨done, h⟩) lvl)
              (fun lvl2 => catchup_aux log (done + 1) lvl2)) := by
  refine ⟨catchup_aux_eq_apply_list log done lvl hle, ?_⟩
  intro h
  rw [catchup_aux, dif_pos h]
  cases happ : _apply_daction (log.get ⟨done, h⟩) lvl with
  | none => rfl
  | some lvl2 => rfl

/-- Witness for C4: with a two-entry log the drained loop equals the ordered
sequential application of the full log. -/
theorem catchup_order_preservation_witness :
    (0 : Nat) ≤ ([DACT_SHUFFLE_DECKS, DACT_REAUTOMAP] : List Nat).length
    ∧ catchup_aux [DACT_SHUFFLE_DECKS, DACT_REAUTOMAP] 0 emptyLevelState
        = Option.map
            (fun l => (([DACT_SHUFFLE_DECKS, DACT_REAUTOMAP] : List Nat).length, l))
            (apply_list (([DACT_SHUFFLE_DECKS, DACT_REAUTOMAP] : List Nat).drop 0)
              emptyLevelState) :=
  ⟨by decide,
   (catchup_order_preservation [DACT_SHUFFLE_DECKS, DACT_REAUTOMAP] 0
     emptyLevelState (by decide)).1⟩

/-- C3: add_daction appends the kind to the global action log; it zeroes
that kind counter slot on every tracked level (tracked levels include ones
not currently active) exactly when the kind is counted, leaving the counter
store untouched for uncounted kinds; and it then immediately runs catch-up
against the currently active level. -/
theorem add_daction_spec (act : Nat) (s t : GameState)
    (hwf : ∀ li ∈ s.travel_cache.levels, li.da_counters.length = NUM_DA_COUNTERS)
    (h : add_daction act s = some t) :
    t.dactions = s.dactions ++ [act]
    ∧ (act < NUM_DA_COUNTERS →
        ∀ li ∈ t.travel_cache.levels, li.da_counters.get? act = some 0)
    ∧ (¬ act < NUM_DA_COUNTERS → t.travel_cache = s.travel_cache)
    ∧ catchup_aux (s.dactions ++ [act]) s.dactions_done s.lvl
        = some (t.dactions_done, t.lvl) := by
  unfold add_daction catchup_dactions at h
  cases haux : catchup_aux (s.dactions ++ [act]) s.dactions_done s.lvl with
  | none => rw [haux] at h; cases h
  | some r =>
    rw [haux] at h
    cases h
    obtain ⟨d2, l2⟩ := r
    refine ⟨rfl, ?_, ?_, ?_⟩
    · intro hc li hli
      have hmem : li ∈ (s.travel_cache.clear_da_counter act).levels := by
        simpa [if_pos hc] using hli
      simp only [TravelCache.clear_da_counter, List.mem_map] at hmem
      obtain ⟨li0, hmem0, rfl⟩ := hmem
      exact list_get?_set_self li0.da_counters act 0
        (by rw [hwf li0 hmem0]; exact hc)
    · intro hc
      show (if act < NUM_DA_COUNTERS then s.travel_cache.clear_da_counter act
        else s.travel_cache) = s.travel_cache
      rw [if_neg hc]
    · rfl

/-- Witness for C3: scheduling DACT_ALLY_HOLY on a session with an empty
log appends the kind and zeroes slot 0 of the tracked level counters. -/
theorem add_daction_spec_witness :
    (∀ li ∈ counterSessionState.travel_cache.levels,
        li.da_counters.length = NUM_DA_COUNTERS)
    ∧ counterSessionAfter.dactions = counterSessionState.dactions ++ [DACT_ALLY_HOLY]
    ∧ (∀ li ∈ counterSessionAfter.travel_cache.levels,
        li.da_counters.get? DACT_ALLY_HOLY = some 0) := by
  have haux : catchup_aux [DACT_ALLY_HOLY] 0 emptyLevelState
      = some (1, emptyLevelState) := by
    rw [catchup_aux_step [DACT_ALLY_HOLY] 0 emptyLevelState emptyLevelState
      (by decide) rfl]
    exact catchup_aux_stop _ _ _ (by decide)
  have hadd : add_daction DACT_ALLY_HOLY counterSessionState
      = some counterSessionAfter := by
    unfold add_daction catchup_dactions
    rw [show ({ counterSessionState with
          dactions := counterSessionState.dactions ++ [DACT_ALLY_HOLY],
          travel_cache := if DACT_ALLY_HOLY < NUM_DA_COUNTERS then counterSessionState.travel_cache.clear_da_counter DACT_ALLY_HOLY else counterSessionState.travel_cache } : GameState).dactions
        = [DACT_ALLY_HOLY] from rfl]
    rw [show ({ counterSessionState with
          dactions := counterSessionState.dactions ++ [DACT_ALLY_HOLY],
          travel_cache := if DACT_ALLY_HOLY < NUM_DA_COUNTERS then counterSessionState.travel_cache.clear_da_counter DACT_ALLY_HOLY else counterSessionState.travel_cache } : GameState).dactions_done
        = 0 from rfl]
    rw [show ({ counterSessionState with
          dactions := counterSessionState.dactions ++ [DACT_ALLY_HOLY],
          travel_cache := if DACT_ALLY_HOLY < NUM_DA_COUNTERS then counterSessionState.travel_cache.clear_da_counter DACT_ALLY_HOLY else counterSessionState.travel_cache } : GameState).lvl
        = emptyLevelState from rfl]
    rw [haux]
    rfl
  have hmain := add_daction_spec DACT_ALLY_HOLY counterSessionState
    counterSessionAfter (by decide) hadd
  exact ⟨by decide, hmain.1, hmain.2.1 (by decide)⟩

/-- C5 (amended): a faction-hostility entry sets every living matching
monster hostile with its charm enchantment stripped, fires the alert and the
allegiance-change notification for it, and leaves non-matching monsters
unchanged; the per-monster turns-against message is emitted exactly by the
deity-specific Trog variant, and the generic variants emit no per-monster
message at all. -/
theorem hostility_cascade_spec (act : Nat) (lvl lvl2 : LevelState)
    (hact : isHostilityDaction act = true)
    (h : _apply_daction act lvl = some lvl2) :
    lvl2.monsters.length = lvl.monsters.length
    ∧ (∀ k m, lvl.monsters.get? k = some m →
        _mons_matches_counter (some m) act = false →
        lvl2.monsters.get? k = some m)
    ∧ (∀ k m, lvl.monsters.get? k = some m →
        _mons_matches_counter (some m) act = true →
        ∃ m2, lvl2.monsters.get? k = some m2
          ∧ m2.attitude = ATT_HOSTILE ∧ m2.has_ench_charm = false)
    ∧ (∃ tail, lvl2.events = lvl.events ++ tail
        ∧ (∀ k m, lvl.monsters.get? k = some m →
            _mons_matches_counter (some m) act = true →
            GameEvent.behaviourAlert k ∈ tail ∧ GameEvent.attChanged k ∈ tail
              ∧ (GameEvent.monsterMsg k turnsAgainstMsg ∈ tail
                  ↔ act = DACT_ALLY_TROG))
        ∧ (∀ k msg, GameEvent.monsterMsg k msg ∈ tail → act = DACT_ALLY_TROG)) := by
  have hlt : act < NUM_DACTIONS := by
    simp only [isHostilityDaction, Bool.or_eq_true, beq_iff_eq,
      DACT_ALLY_HOLY, DACT_ALLY_UNHOLY_EVIL, DACT_ALLY_UNCLEAN_CHAOTIC,
      DACT_ALLY_SPELLCASTER, DACT_ALLY_YRED_SLAVE, DACT_ALLY_BEOGH,
      DACT_ALLY_SLIME, DACT_ALLY_PLANT, DACT_ALLY_TROG] at hact
    simp only [NUM_DACTIONS]
    omega
  have hred : _apply_daction act lvl
      = some (runMonsterLoop (hostility_step act) lvl) := by
    unfold _apply_daction
    rw [if_pos hlt, if_pos hact]
  rw [hred] at h
  cases h
  refine ⟨runMonsterLoop_monsters_length (hostility_step act) lvl, ?_, ?_, ?_⟩
  · intro k m hget hno
    rw [runMonsterLoop_monsters_get?, hget]
    simp [hostility_step, hno]
  · intro k m hget hm
    refine ⟨(hostility_step act k m).1,
      by rw [runMonsterLoop_monsters_get?, hget]; rfl, ?_, ?_⟩
    · simp [hostility_step, hm]
    · simp [hostility_step, hm]
  · refine ⟨(stepMonsters (hostility_step act) 0 lvl.monsters).2,
      runMonsterLoop_events (hostility_step act) lvl, ?_, ?_⟩
    · intro k m hget hm
      refine ⟨?_, ?_, ?_⟩
      · exact (runMonsterLoop_events_mem (hostility_step act) lvl _).2
          ⟨k, m, hget, by simp [hostility_step, hm]⟩
      · exact (runMonsterLoop_events_mem (hostility_step act) lvl _).2
          ⟨k, m, hget, by simp [hostility_step, hm]⟩
      · constructor
        · intro hmem
          obtain ⟨k2, m2, hget2, he⟩ :=
            (runMonsterLoop_events_mem (hostility_step act) lvl _).1 hmem
          exact hostility_step_msg_trog act k2 k m2 turnsAgainstMsg he
        · intro ht
          subst ht
          exact (runMonsterLoop_events_mem (hostility_step DACT_ALLY_TROG) lvl _).2
            ⟨k, m, hget, by simp [hostility_step, hm]⟩
    · intro k msg hmem
      obtain ⟨k2, m2, hget2, he⟩ :=
        (runMonsterLoop_events_mem (hostility_step act) lvl _).1 hmem
      exact hostility_step_msg_trog act k2 k m2 msg he

/-- Witness for C5 (amended): the holy-hostility kind on the concrete
scenario level preserves the monster count, and the Trog kind on the Trog
scenario emits the turns-against message for its converted monster. -/
theorem hostility_cascade_spec_witness :
    isHostilityDaction DACT_ALLY_HOLY = true
    ∧ (runMonsterLoop (hostility_step DACT_ALLY_HOLY) holyScenarioLvl).monsters.length
        = holyScenarioLvl.monsters.length :=
  ⟨rfl,
   (hostility_cascade_spec DACT_ALLY_HOLY holyScenarioLvl
     (runMonsterLoop (hostility_step DACT_ALLY_HOLY) holyScenarioLvl) rfl rfl).1⟩

/-- C5 counterexample: applying the generic holy-hostility kind to the
scenario level (friendly holy monster, hostile holy monster, friendly
godless monster) converts exactly the first monster to hostile yet emits no
per-monster message whatsoever, while the Trog variant does emit the
turns-against message; this refutes the claim that the generic variants
emit the turns-against message and the Trog variant a different one. -/
theorem hostility_generic_message_counterexample :
    Option.map (fun l => (l.monsters.map Monster.attitude, l.events))
        (_apply_daction DACT_ALLY_HOLY holyScenarioLvl)
      = some ([ATT_HOSTILE, ATT_HOSTILE, ATT_FRIENDLY],
          [GameEvent.behaviourAlert 0, GameEvent.attChanged 0])
    ∧ Option.map (fun l => l.events) (_apply_daction DACT_ALLY_TROG trogScenarioLvl)
      = some [GameEvent.behaviourAlert 0, GameEvent.attChanged 0,
          GameEvent.monsterMsg 0 turnsAgainstMsg] :=
  ⟨rfl, rfl⟩

end Crawl
